import Mathlib

/-!
Shallow embedding of the shutdown-daemon agent (repository
amar-ventures/shutdown_golang).  The repository contains two recorded
variants of the Go program:

* `src/app.go` — embedded below with names suffixed `V1`;
* the updated `app.go` recorded in `src/unnamed/part_002` — embedded
  below with unsuffixed names (it is the variant whose behavior matches
  the specification section 4.5).

Modelling conventions:

* Wall-clock instants are `Int` Unix seconds.  Go durations are
  converted to seconds: `ShutdownDelay = 5`, `MinUptimeBeforeShutdown
  = 60`, `ShutdownPollInterval = 10`.
* JSON numbers are modelled as `Int` (the program only compares Unix
  timestamps, so integer arithmetic is the relevant fragment; the Go
  `float64 → int64` cast is the identity there).
* A Go `time.Time` value marshalled to, or an RFC3339 string denoting,
  the instant `t` is modelled by the dedicated constructor `JSON.time t`;
  this avoids embedding a date formatter while keeping the instant.
  `time.Parse(time.RFC3339, s)` on an arbitrary operator-written string
  is modelled by an explicit argument `parse : String → Option Int`
  (`none` = parse error); on a `JSON.time t` value it yields `t`.
* Remote effects are recorded as a trace: a `List AgentAction` in the order
  the program performs them.  `AgentAction.patch fields` is one call of
  `patchDevice` with the given payload, `AgentAction.powerOff cmd` is one
  invocation of the OS power-off command, `AgentAction.logMsg` marks a
  branch whose only effect is a log line, `AgentAction.sleep s` a sleep of
  `s` seconds, `AgentAction.createDev` a call of `createDevice`.
* The outcome of the power-off command (`cmd.Run` / `cmd.CombinedOutput`)
  is an explicit argument `cmdErr : Option String` (`some e` = the
  command failed with error description `e`, `none` = success).
-/

/-- JSON values as handled by Go `map[string]interface{}` decoding.
`time t` stands for an RFC3339 timestamp string (or marshalled
`time.Time`) denoting instant `t`. -/
inductive JSON where
  | null : JSON
  | bool (b : Bool) : JSON
  | num (n : Int) : JSON
  | str (s : String) : JSON
  | time (t : Int) : JSON
  | arr (xs : List JSON) : JSON
  | obj (fs : List (String × JSON)) : JSON

/-- Field lookup in a JSON object (Go `m[key]` on a decoded map). -/
def lookupField (fs : List (String × JSON)) (k : String) : Option JSON :=
  match fs with
  | [] => none
  | (k2, v) :: rest => if k2 = k then some v else lookupField rest k

/-- Go type assertion `v.(float64)` on a decoded JSON value. -/
def asNum : Option JSON → Option Int
  | some (JSON.num n) => some n
  | _ => none

/-- Remote and local effects of the agent, in program order. -/
inductive AgentAction where
  | patch (fields : List (String × JSON)) : AgentAction
  | createDev : AgentAction
  | sleep (secs : Int) : AgentAction
  | powerOff (cmd : List String) : AgentAction
  | logMsg : AgentAction

/-- ShutdownDelay of app.go, in seconds. -/
def ShutdownDelay : Int := 5

/-- ShutdownPollInterval of app.go, in seconds. -/
def ShutdownPollInterval : Int := 10

/-- MinUptimeBeforeShutdown of app.go, in seconds. -/
def MinUptimeBeforeShutdown : Int := 60

/-- Payload `map[string]string{"status": s}` written into the
`shutdown_requested` column. -/
def statusOnly (s : String) : JSON :=
  JSON.obj [("status", JSON.str s)]

/-- Uptime guard of both `handleShutdown` variants:
`dev.FirstOnlineAt != nil && time.Since(*dev.FirstOnlineAt) <
MinUptimeBeforeShutdown`. -/
def uptimeYoung (now : Int) (firstOnlineAt : Option Int) : Bool :=
  match firstOnlineAt with
  | some t => decide (now - t < MinUptimeBeforeShutdown)
  | none => false

/-- Expiry check of `handleShutdown` in src/app.go:
`if exp, ok := req["expires_at"].(float64); ok { if time.Now().Unix() >
int64(exp) { patch expired; return } }`.  Result `some tr` means the
function returns early with trace `tr`; `none` means fall through. -/
def expiryCheckV1 (now : Int) (req : List (String × JSON)) :
    Option (List AgentAction) :=
  match asNum (lookupField req "expires_at") with
  | some exp => if exp < now
      then some [AgentAction.patch [("shutdown_requested", statusOnly "expired")]]
      else none
  | none => none

/-- handleShutdown of src/app.go (lines 247-261): expiry check, uptime
guard, then PATCH `shutdown_requested={status: done}`, sleep
`ShutdownDelay`, and run `shutdown now` unconditionally. -/
def handleShutdownV1 (now : Int) (req : List (String × JSON))
    (firstOnlineAt : Option Int) : List AgentAction :=
  match expiryCheckV1 now req with
  | some tr => tr
  | none =>
      if uptimeYoung now firstOnlineAt then []
      else
        [AgentAction.patch [("shutdown_requested", statusOnly "done")],
         AgentAction.sleep ShutdownDelay,
         AgentAction.powerOff ["shutdown", "now"]]

/-- Expiry check of `handleShutdown` in src/unnamed/part_002 (lines
459-471): `if expiresStr, ok := req["expires_at"].(string); ok` then
`time.Parse(time.RFC3339, expiresStr)`; a parse error logs and returns,
a past instant patches `expired` and returns, otherwise fall through
(`none`).  A `JSON.time t` value is a well-formed RFC3339 string and
parses to `t`; any non-string value skips the block. -/
def expiryCheckV2 (parse : String → Option Int) (now : Int)
    (req : List (String × JSON)) : Option (List AgentAction) :=
  match lookupField req "expires_at" with
  | some (JSON.str s) =>
      match parse s with
      | none => some [AgentAction.logMsg]
      | some expAt => if expAt < now
          then some [AgentAction.patch [("shutdown_requested", statusOnly "expired")]]
          else none
  | some (JSON.time t) =>
      if t < now
      then some [AgentAction.patch [("shutdown_requested", statusOnly "expired")]]
      else none
  | _ => none

/-- OS dispatch of handleShutdown in src/unnamed/part_002 (lines
486-502): the power-off command per `runtime.GOOS`, `none` for an
unsupported OS. -/
def osPowerOffCmd (osName : String) : Option (List String) :=
  if osName = "windows" then some ["shutdown", "/s", "/t", "0"]
  else if osName = "linux" then some ["systemctl", "poweroff"]
  else if osName = "darwin" then
    some ["osascript", "-e",
      "tell application \"System Events\" to shut down"]
  else none

/-- Commit payload of handleShutdown in src/unnamed/part_002 (lines
480-484): `shutdown_requested={status: shutting_down}`, `status=off`,
`last_seen=now` (RFC3339 string). -/
def commitFields (now : Int) : List (String × JSON) :=
  [("shutdown_requested", statusOnly "shutting_down"),
   ("status", JSON.str "off"),
   ("last_seen", JSON.time now)]

/-- Failure payload of handleShutdown in src/unnamed/part_002 (lines
507-512): `shutdown_requested={status: failed, error: e}`. -/
def failedFields (e : String) : List (String × JSON) :=
  [("shutdown_requested",
      JSON.obj [("status", JSON.str "failed"), ("error", JSON.str e)])]

/-- Success payload of handleShutdown in src/unnamed/part_002 (lines
517-520): `shutdown_requested={status: done}`, `status=off`. -/
def doneFields : List (String × JSON) :=
  [("shutdown_requested", statusOnly "done"),
   ("status", JSON.str "off")]

/-- handleShutdown of src/unnamed/part_002 (lines 457-523): expiry
check, uptime guard (log only), commit PATCH, grace sleep, OS dispatch
(unsupported OS logs and returns), command execution, then exactly one
of the `failed` / `done` outcome PATCHes depending on `cmdErr`. -/
def handleShutdown (parse : String → Option Int) (now : Int)
    (req : List (String × JSON)) (firstOnlineAt : Option Int)
    (osName : String) (cmdErr : Option String) : List AgentAction :=
  match expiryCheckV2 parse now req with
  | some tr => tr
  | none =>
      if uptimeYoung now firstOnlineAt then [AgentAction.logMsg]
      else
        [AgentAction.patch (commitFields now), AgentAction.sleep ShutdownDelay] ++
        match osPowerOffCmd osName with
        | none => [AgentAction.logMsg]
        | some cmd =>
            AgentAction.powerOff cmd ::
            match cmdErr with
            | some e => [AgentAction.patch (failedFields e)]
            | none => [AgentAction.patch doneFields]

/-- Payload of one updateDeviceStatus tick (src/app.go lines 103-114,
src/unnamed/part_002 lines 299-313): `status="on"`, `last_seen=now`,
`first_online_at=now`. -/
def updateDeviceStatusFields (now : Int) : List (String × JSON) :=
  [("status", JSON.str "on"),
   ("last_seen", JSON.time now),
   ("first_online_at", JSON.time now)]

/-- One tick of the Status Reporter issues exactly this PATCH. -/
def updateDeviceStatusTick (now : Int) : AgentAction :=
  AgentAction.patch (updateDeviceStatusFields now)

/-- Device record as decoded by the agent (the fields it consults):
`FirstOnlineAt *time.Time` and the raw `shutdown_requested` column.
`shutdownRequest = none` models a nil `json.RawMessage` (column absent);
`some raw` models present raw bytes, where `raw = some j` if the bytes
are the valid JSON document `j` and `raw = none` if they are not valid
JSON at all. -/
structure DeviceM where
  firstOnlineAt : Option Int
  shutdownRequest : Option (Option JSON)

/-- Go `json.Unmarshal(raw, &req)` into a `map[string]interface{}`:
succeeds exactly on a JSON object (yielding its fields) or on JSON
`null` (yielding the nil map); fails on invalid bytes and on any other
JSON document. -/
def unmarshalObj : Option JSON → Option (List (String × JSON))
  | some (JSON.obj fs) => some fs
  | some JSON.null => some []
  | _ => none

/-- Go `status, _ := req["status"].(string); status == "pending"`. -/
def statusIsPending (req : List (String × JSON)) : Bool :=
  match lookupField req "status" with
  | some (JSON.str s) => s = "pending"
  | _ => false

/-- One iteration of the shutdown Watcher loop
(`listenForShutdownRequests`, src/app.go lines 118-149 and
src/unnamed/part_002 lines 317-356; the two variants have the same loop
body).  `fetch` is the outcome of `fetchDevices` (`none` = error).
Every branch falls through to the poll-interval sleep and the loop
continues, so the iteration is a total function into a finite trace. -/
def shutdownWatcherIter (parse : String → Option Int) (now : Int)
    (fetch : Option (List DeviceM)) (osName : String)
    (cmdErr : Option String) : List AgentAction :=
  match fetch with
  | none => [AgentAction.logMsg, AgentAction.sleep ShutdownPollInterval]
  | some [] =>
      [AgentAction.createDev, AgentAction.sleep ShutdownPollInterval]
  | some (device :: _) =>
      (match device.shutdownRequest with
       | none => []
       | some raw =>
           match unmarshalObj raw with
           | none => [AgentAction.logMsg]
           | some req =>
               if statusIsPending req then
                 handleShutdown parse now req device.firstOnlineAt osName cmdErr
               else []) ++ [AgentAction.sleep ShutdownPollInterval]

/-- Outcome of one HTTP call: a transport error or a status code. -/
inductive NetResp where
  | err (e : String) : NetResp
  | resp (status : Nat) : NetResp

/-- Boolean success test for an `Except`-returning operation. -/
def exceptOk (r : Except String Unit) : Bool :=
  match r with
  | Except.ok _ => true
  | Except.error _ => false

/-- createDevice of src/app.go (lines 177-204): POSTs the new row with
header `Prefer: resolution=merge-duplicates` and returns an error
exactly when the transport fails or the response status is 300 or
above.  `postR` is the registry response to the POST. -/
def createDeviceV1 (postR : NetResp) : Except String Unit :=
  match postR with
  | NetResp.err e => Except.error e
  | NetResp.resp s =>
      if s ≥ 300 then Except.error ("createDevice status " ++ toString s)
      else Except.ok ()

/-- Preference header that src/app.go createDevice sets on the POST,
making the registry merge a duplicate (user_id, name) row instead of
answering with a uniqueness-violation conflict. -/
def createDeviceV1PreferHeader : String × String :=
  ("Prefer", "resolution=merge-duplicates")

/-- createDevice of src/unnamed/part_002 (lines 376-414): first fetches
the device; a fetch error is returned as an error; if the list is
nonempty the function returns success without POSTing; otherwise it
POSTs (plain insert, `Prefer: return=minimal`) and returns an error
exactly when the transport fails or the status is 300 or above.  The
second component records whether the POST was sent. -/
def createDeviceV2 (fetchR : Except String (List DeviceM))
    (postR : NetResp) : Except String Unit × Bool :=
  match fetchR with
  | Except.error e =>
      (Except.error ("failed to check existing device: " ++ e), false)
  | Except.ok devices =>
      if devices.length > 0 then (Except.ok (), false)
      else
        match postR with
        | NetResp.err e => (Except.error e, true)
        | NetResp.resp s =>
            if s ≥ 300 then
              (Except.error ("createDevice status " ++ toString s), true)
            else (Except.ok (), true)

/-- Responses a registry gives to the k-th patch attempt of one
`patchDevice` call chain: the PATCH response, the `fetchDevices`
outcome and the `createDevice` outcome used in the 404-recovery step. -/
structure RegistryBehavior where
  patchResp : Nat → NetResp
  fetchResp : Nat → Except String (List DeviceM)
  createResp : Nat → Except String Unit

/-- Device list the 404-recovery step of patchDevice sees at attempt
`k`: `devices, _ := fetchDevices(...)` ignores the error, leaving a nil
slice. -/
def recoveryDevices (reg : RegistryBehavior) (k : Nat) : List DeviceM :=
  match reg.fetchResp k with
  | Except.error _ => []
  | Except.ok ds => ds

/-- patchDevice of src/app.go (lines 206-244; the part_002 variant at
lines 416-454 has the same recursion structure): issue the PATCH; on a
transport error log and return; on 404 fetch the record, create it if
the fetch showed none (returning if the create fails), then recurse
with no retry limit; on any other status log and return.  The recursion
is modelled with explicit fuel: `none` means the fuel ran out, i.e. the
call is still recursing after `fuel` attempts, and `some ()` means the
call returned. -/
def patchDeviceFuel (reg : RegistryBehavior) :
    Nat → Nat → Option Unit
  | _, 0 => none
  | k, fuel + 1 =>
      match reg.patchResp k with
      | NetResp.err _ => some ()
      | NetResp.resp s =>
          if s = 404 then
            if (recoveryDevices reg k).length = 0 then
              match reg.createResp k with
              | Except.error _ => some ()
              | Except.ok _ => patchDeviceFuel reg (k + 1) fuel
            else patchDeviceFuel reg (k + 1) fuel
          else some ()

/-- Status string a PATCH payload writes into `shutdown_requested`, if
any. -/
def patchShutdownStatus (fields : List (String × JSON)) : Option String :=
  match lookupField fields "shutdown_requested" with
  | some (JSON.obj o) =>
      match lookupField o "status" with
      | some (JSON.str s) => some s
      | _ => none
  | _ => none

/-- Sequence of `shutdown_requested` statuses a trace writes, in
order. -/
def writtenShutdownStatuses : List AgentAction → List String
  | [] => []
  | AgentAction.patch fs :: rest =>
      (match patchShutdownStatus fs with
       | some s => [s]
       | none => []) ++ writtenShutdownStatuses rest
  | _ :: rest => writtenShutdownStatuses rest

/-- Terminal statuses (`done` / `failed`) a trace writes, in order. -/
def terminalWrites (tr : List AgentAction) : List String :=
  (writtenShutdownStatuses tr).filter (fun s => s == "done" || s == "failed")

/-- Transition relation of the shutdown-request state machine listed in
the specification: `pending → expired | shutting_down` and
`shutting_down → done | failed`. -/
def allowedStep (a b : String) : Bool :=
  (a == "pending" && (b == "expired" || b == "shutting_down")) ||
  (a == "shutting_down" && (b == "done" || b == "failed"))

/-- Validity of a chain of writes starting from state `s`: each written
state is reached from its predecessor by one listed transition. -/
def chainOk (s : String) : List String → Bool
  | [] => true
  | b :: rest => allowedStep s b && chainOk b rest

/-- Test for a PATCH action. -/
def isPatch : AgentAction → Bool
  | AgentAction.patch _ => true
  | _ => false

/-- Number of power-off invocations in a trace. -/
def countPowerOff : List AgentAction → Nat
  | [] => 0
  | AgentAction.powerOff _ :: rest => countPowerOff rest + 1
  | _ :: rest => countPowerOff rest

/-- C6: on every tick of the Status Reporter, the PATCH it issues sets
`status` to "on", sets `last_seen` to the current time, and also
rewrites `first_online_at` to the current time, so `first_online_at`
does not remain a stable creation-time epoch across liveness updates
(src/app.go lines 103-114, src/unnamed/part_002 lines 299-313). -/
theorem C6_status_reporter_rewrites_first_online (now : Int) :
    updateDeviceStatusTick now = AgentAction.patch (updateDeviceStatusFields now) ∧
    lookupField (updateDeviceStatusFields now) "status" = some (JSON.str "on") ∧
    lookupField (updateDeviceStatusFields now) "last_seen" = some (JSON.time now) ∧
    lookupField (updateDeviceStatusFields now) "first_online_at" =
      some (JSON.time now) := by
  refine ⟨rfl, ?_, ?_, ?_⟩ <;> simp [updateDeviceStatusFields, lookupField]

/-- C8: a `shutdown_requested` payload that is present but does not
decode as a JSON object makes one Watcher iteration log the parse
failure and complete normally: no executor call, no PATCH, no power-off,
and the loop sleeps one poll interval and polls again. -/
theorem C8_malformed_payload_harmless (parse : String → Option Int)
    (now : Int) (d : DeviceM) (rest : List DeviceM) (raw : Option JSON)
    (osName : String) (cmdErr : Option String)
    (hreq : d.shutdownRequest = some raw)
    (hbad : unmarshalObj raw = none) :
    shutdownWatcherIter parse now (some (d :: rest)) osName cmdErr =
      [AgentAction.logMsg, AgentAction.sleep ShutdownPollInterval] := by
  simp [shutdownWatcherIter, hreq, hbad]

/-- Witness for C8 at a concrete malformed payload (a JSON array, which
`json.Unmarshal` rejects for a `map[string]interface` target). -/
theorem C8_malformed_payload_harmless_witness :
    unmarshalObj (some (JSON.arr [JSON.num 1])) = none ∧
    shutdownWatcherIter (fun _ => none) 50
        (some [DeviceM.mk none (some (some (JSON.arr [JSON.num 1])))])
        "linux" none =
      [AgentAction.logMsg, AgentAction.sleep ShutdownPollInterval] :=
  ⟨rfl, C8_malformed_payload_harmless (fun _ => none) 50
      (DeviceM.mk none (some (some (JSON.arr [JSON.num 1])))) []
      (some (JSON.arr [JSON.num 1])) "linux" none rfl rfl⟩

/-- C9: in the src/app.go variant, the expiry check only fires when
`expires_at` is a JSON number; for a pending request whose `expires_at`
is present but of any other JSON type (for example an RFC3339 string),
the deadline is ignored and, the uptime guard passing, execution
proceeds to the power-off — the trace is exactly the commit-and-power-
off trace and contains no `expired` write. -/
theorem C9_v1_ignores_nonnumeric_deadline (now : Int)
    (req : List (String × JSON)) (fo : Option Int) (j : JSON)
    (hpresent : lookupField req "expires_at" = some j)
    (hnotnum : asNum (some j) = none)
    (hguard : uptimeYoung now fo = false) :
    handleShutdownV1 now req fo =
      [AgentAction.patch [("shutdown_requested", statusOnly "done")],
       AgentAction.sleep ShutdownDelay,
       AgentAction.powerOff ["shutdown", "now"]] := by
  unfold handleShutdownV1 expiryCheckV1
  rw [hpresent, hnotnum, hguard]
  simp

/-- Witness for C9: deadline an RFC3339 string denoting instant 0, long
past at `now = 1000`, yet the power-off path is taken. -/
theorem C9_v1_ignores_nonnumeric_deadline_witness :
    lookupField [("status", JSON.str "pending"), ("expires_at", JSON.time 0)]
        "expires_at" = some (JSON.time 0) ∧
    uptimeYoung 1000 (some 0) = false ∧
    handleShutdownV1 1000
        [("status", JSON.str "pending"), ("expires_at", JSON.time 0)]
        (some 0) =
      [AgentAction.patch [("shutdown_requested", statusOnly "done")],
       AgentAction.sleep ShutdownDelay,
       AgentAction.powerOff ["shutdown", "now"]] :=
  ⟨rfl, by decide,
   C9_v1_ignores_nonnumeric_deadline 1000
     [("status", JSON.str "pending"), ("expires_at", JSON.time 0)]
     (some 0) (JSON.time 0) rfl rfl (by decide)⟩

/-- C3 counterexample: a pending request whose `expires_at` is present
(the JSON number 1000, one thousand seconds in the past at `now =
2000`) is not transitioned to `expired` by the part_002 executor: the
deadline is of the wrong JSON type for that variant, so the executor
commits (`shutting_down`) and powers off (`done`), refuting the claim
that every present-and-past deadline yields `expired` and never
`shutting_down`. -/
theorem C3_counterexample :
    statusIsPending
        [("status", JSON.str "pending"), ("expires_at", JSON.num 1000)] = true ∧
    lookupField [("status", JSON.str "pending"), ("expires_at", JSON.num 1000)]
        "expires_at" = some (JSON.num 1000) ∧
    writtenShutdownStatuses (handleShutdown (fun _ => none) 2000
        [("status", JSON.str "pending"), ("expires_at", JSON.num 1000)]
        (some 0) "linux" none) = ["shutting_down", "done"] := by
  refine ⟨rfl, rfl, ?_⟩
  simp [handleShutdown, expiryCheckV2, lookupField, uptimeYoung,
    MinUptimeBeforeShutdown, osPowerOffCmd, writtenShutdownStatuses,
    patchShutdownStatus, commitFields, doneFields, statusOnly]

/-- C3 amended: for every pending request whose `expires_at` is present
in the representation the variant decodes (a JSON number of Unix
seconds for src/app.go; an RFC3339 string for src/unnamed/part_002) and
whose instant is already past, the executor PATCHes only
`shutdown_request={status: expired}` and returns: the trace is exactly
that one write, so no power-off is attempted, `shutting_down` is never
written, and the device status field is untouched. -/
theorem C3_past_deadline_expires (parse : String → Option Int)
    (now e : Int) (req : List (String × JSON)) (fo : Option Int)
    (osName : String) (cmdErr : Option String) :
    (lookupField req "expires_at" = some (JSON.num e) → e < now →
       handleShutdownV1 now req fo =
         [AgentAction.patch [("shutdown_requested", statusOnly "expired")]]) ∧
    (∀ s, lookupField req "expires_at" = some (JSON.str s) →
       parse s = some e → e < now →
       handleShutdown parse now req fo osName cmdErr =
         [AgentAction.patch [("shutdown_requested", statusOnly "expired")]]) ∧
    (lookupField req "expires_at" = some (JSON.time e) → e < now →
       handleShutdown parse now req fo osName cmdErr =
         [AgentAction.patch [("shutdown_requested", statusOnly "expired")]]) := by
  refine ⟨?_, ?_, ?_⟩
  · intro hl hpast
    unfold handleShutdownV1 expiryCheckV1
    rw [hl]
    simp [asNum, hpast]
  · intro s hl hparse hpast
    unfold handleShutdown expiryCheckV2
    rw [hl]
    simp [hparse, hpast]
  · intro hl hpast
    unfold handleShutdown expiryCheckV2
    rw [hl]
    simp [hpast]

/-- Witness for C3 amended, exercising the numeric (app.go) and the
RFC3339-string (part_002) representations at concrete past deadlines. -/
theorem C3_past_deadline_expires_witness :
    lookupField [("expires_at", JSON.num 5)] "expires_at" =
      some (JSON.num 5) ∧
    handleShutdownV1 9 [("expires_at", JSON.num 5)] none =
      [AgentAction.patch [("shutdown_requested", statusOnly "expired")]] ∧
    handleShutdown (fun _ => none) 9 [("expires_at", JSON.time 5)] none
        "linux" none =
      [AgentAction.patch [("shutdown_requested", statusOnly "expired")]] :=
  ⟨rfl,
   (C3_past_deadline_expires (fun _ => none) 9 5 [("expires_at", JSON.num 5)]
      none "linux" none).1 rfl (by decide),
   (C3_past_deadline_expires (fun _ => none) 9 5 [("expires_at", JSON.time 5)]
      none "linux" none).2.2 rfl (by decide)⟩

/-- C5 counterexample: a pending request observed with `first_online_at`
known and only 10 of the required 60 seconds elapsed is not left
untouched when its deadline is already past — the executor runs the
expiry check before the uptime guard and PATCHes
`shutdown_request={status: expired}`, so a PATCH is issued inside the
minimum-uptime window, refuting "no PATCH is issued". -/
theorem C5_counterexample :
    uptimeYoung 100 (some 90) = true ∧
    statusIsPending
        [("status", JSON.str "pending"), ("expires_at", JSON.time 0)] = true ∧
    List.any (handleShutdown (fun _ => none) 100
        [("status", JSON.str "pending"), ("expires_at", JSON.time 0)]
        (some 90) "linux" none) isPatch = true := by
  refine ⟨by decide, rfl, ?_⟩
  simp [handleShutdown, expiryCheckV2, lookupField, isPatch]

/-- C5 amended: for every pending request that does not take the expiry
path (the expiry check falls through), observed while `first_online_at`
is known and less than `MinUptimeBeforeShutdown` has elapsed since it,
the executor skips silently: the src/app.go variant returns the empty
trace and the part_002 variant only logs — in both cases no PATCH is
issued, nothing on the device record changes, and no power-off is
attempted. -/
theorem C5_uptime_guard_skips (parse : String → Option Int) (now : Int)
    (req : List (String × JSON)) (fo : Option Int) (osName : String)
    (cmdErr : Option String)
    (hyoung : uptimeYoung now fo = true) :
    (expiryCheckV1 now req = none → handleShutdownV1 now req fo = []) ∧
    (expiryCheckV2 parse now req = none →
       handleShutdown parse now req fo osName cmdErr = [AgentAction.logMsg]) := by
  constructor
  · intro hexp
    unfold handleShutdownV1
    rw [hexp, hyoung]
    simp
  · intro hexp
    unfold handleShutdown
    rw [hexp, hyoung]
    simp

/-- Witness for C5 amended: concrete pending request with no deadline,
`first_online_at` 10 seconds ago. -/
theorem C5_uptime_guard_skips_witness :
    uptimeYoung 100 (some 90) = true ∧
    handleShutdownV1 100 [("status", JSON.str "pending")] (some 90) = [] ∧
    handleShutdown (fun _ => none) 100 [("status", JSON.str "pending")]
        (some 90) "linux" none = [AgentAction.logMsg] :=
  ⟨by decide,
   (C5_uptime_guard_skips (fun _ => none) 100 [("status", JSON.str "pending")]
      (some 90) "linux" none (by decide)).1 rfl,
   (C5_uptime_guard_skips (fun _ => none) 100 [("status", JSON.str "pending")]
      (some 90) "linux" none (by decide)).2 rfl⟩

/-- C2 counterexample: the src/app.go executor, committing a pending
request (no deadline, uptime guard passed), writes
`shutdown_request={status: done}` — not `shutting_down`, and with no
`status=off` or `last_seen` — before sleeping and invoking the
power-off, so the state `shutting_down` is never written before the
power-off attempt in that variant. -/
theorem C2_counterexample :
    writtenShutdownStatuses
        (handleShutdownV1 100 [("status", JSON.str "pending")] (some 0)) =
      ["done"] ∧
    countPowerOff
        (handleShutdownV1 100 [("status", JSON.str "pending")] (some 0)) = 1 := by
  constructor <;>
    simp [handleShutdownV1, expiryCheckV1, lookupField, asNum, uptimeYoung,
      MinUptimeBeforeShutdown, writtenShutdownStatuses, patchShutdownStatus,
      statusOnly, countPowerOff]

/-- C2 amended: in the src/unnamed/part_002 variant, when the executor
commits (expiry check falls through, uptime guard passed), the first
two actions of its trace are exactly the commit PATCH — which sets
`shutdown_request={status: shutting_down}`, `status=off` and
`last_seen=now` — followed by the 5-second grace sleep; every power-off
invocation comes only after them.  The src/app.go variant instead
writes `{status: done}` alone before its sleep and power-off. -/
theorem C2_commit_before_poweroff (parse : String → Option Int)
    (now : Int) (req : List (String × JSON)) (fo : Option Int)
    (osName : String) (cmdErr : Option String)
    (hexp : expiryCheckV2 parse now req = none)
    (hguard : uptimeYoung now fo = false) :
    (handleShutdown parse now req fo osName cmdErr).take 2 =
      [AgentAction.patch (commitFields now), AgentAction.sleep ShutdownDelay] ∧
    patchShutdownStatus (commitFields now) = some "shutting_down" ∧
    lookupField (commitFields now) "status" = some (JSON.str "off") ∧
    lookupField (commitFields now) "last_seen" = some (JSON.time now) ∧
    countPowerOff ((handleShutdown parse now req fo osName cmdErr).take 2) = 0 := by
  have htr : handleShutdown parse now req fo osName cmdErr =
      [AgentAction.patch (commitFields now), AgentAction.sleep ShutdownDelay] ++
        (match osPowerOffCmd osName with
         | none => [AgentAction.logMsg]
         | some cmd =>
             AgentAction.powerOff cmd ::
             match cmdErr with
             | some e => [AgentAction.patch (failedFields e)]
             | none => [AgentAction.patch doneFields]) := by
    unfold handleShutdown
    rw [hexp, hguard]
    simp
  rw [htr]
  refine ⟨rfl, ?_, ?_, ?_, rfl⟩ <;>
    simp [patchShutdownStatus, commitFields, lookupField, statusOnly]

/-- Witness for C2 amended at a concrete commit (no deadline, device 100
seconds online, Linux, command succeeding). -/
theorem C2_commit_before_poweroff_witness :
    expiryCheckV2 (fun _ => none) 100 [("status", JSON.str "pending")] = none ∧
    uptimeYoung 100 (some 0) = false ∧
    (handleShutdown (fun _ => none) 100 [("status", JSON.str "pending")]
        (some 0) "linux" none).take 2 =
      [AgentAction.patch (commitFields 100), AgentAction.sleep ShutdownDelay] :=
  ⟨rfl, by decide,
   (C2_commit_before_poweroff (fun _ => none) 100
      [("status", JSON.str "pending")] (some 0) "linux" none rfl
      (by decide)).1⟩

/-- C1 counterexample: the part_002 executor, committing a pending
request on an unsupported platform (`runtime.GOOS = "plan9"`), writes
`shutting_down` and then returns after a log line: no `done` and no
`failed` is ever written, so a committed request can be left with no
terminal write, refuting "never leaves the request with no terminal
write". -/
theorem C1_counterexample :
    writtenShutdownStatuses (handleShutdown (fun _ => none) 100
        [("status", JSON.str "pending")] (some 0) "plan9" none) =
      ["shutting_down"] ∧
    terminalWrites (handleShutdown (fun _ => none) 100
        [("status", JSON.str "pending")] (some 0) "plan9" none) = [] := by
  constructor <;>
    simp [handleShutdown, expiryCheckV2, lookupField, uptimeYoung,
      MinUptimeBeforeShutdown, osPowerOffCmd, writtenShutdownStatuses,
      patchShutdownStatus, commitFields, statusOnly, terminalWrites]

/-- C1 amended: in the src/unnamed/part_002 variant, for every commit on
a supported platform (windows, linux or darwin), the executor invokes
the power-off exactly once and writes exactly one terminal state:
`failed` (with the error description) when the command fails, `done`
(with `status=off`) when it succeeds — never both.  On an unsupported
platform the committed request keeps `shutting_down` with no terminal
write, and the src/app.go variant writes `done` unconditionally before
the command and never writes `failed`. -/
theorem C1_exactly_one_terminal_write (parse : String → Option Int)
    (now : Int) (req : List (String × JSON)) (fo : Option Int)
    (osName : String) (cmdErr : Option String) (c : List String)
    (hexp : expiryCheckV2 parse now req = none)
    (hguard : uptimeYoung now fo = false)
    (hos : osPowerOffCmd osName = some c) :
    handleShutdown parse now req fo osName cmdErr =
      [AgentAction.patch (commitFields now), AgentAction.sleep ShutdownDelay,
       AgentAction.powerOff c,
       AgentAction.patch
         (match cmdErr with
          | some e => failedFields e
          | none => doneFields)] ∧
    terminalWrites (handleShutdown parse now req fo osName cmdErr) =
      [match cmdErr with
       | some _ => "failed"
       | none => "done"] ∧
    countPowerOff (handleShutdown parse now req fo osName cmdErr) = 1 := by
  have htr : handleShutdown parse now req fo osName cmdErr =
      [AgentAction.patch (commitFields now), AgentAction.sleep ShutdownDelay,
       AgentAction.powerOff c,
       AgentAction.patch
         (match cmdErr with
          | some e => failedFields e
          | none => doneFields)] := by
    unfold handleShutdown
    rw [hexp, hguard, hos]
    cases cmdErr <;> simp
  refine ⟨htr, ?_, ?_⟩ <;> rw [htr] <;> cases cmdErr <;>
    simp [terminalWrites, writtenShutdownStatuses, patchShutdownStatus,
      commitFields, failedFields, doneFields, statusOnly, lookupField,
      countPowerOff]

/-- Witness for C1 amended: concrete commits on Linux with a failing and
with a succeeding power-off command. -/
theorem C1_exactly_one_terminal_write_witness :
    osPowerOffCmd "linux" = some ["systemctl", "poweroff"] ∧
    terminalWrites (handleShutdown (fun _ => none) 100
        [("status", JSON.str "pending")] (some 0) "linux"
        (some "exit status 1")) = ["failed"] ∧
    terminalWrites (handleShutdown (fun _ => none) 100
        [("status", JSON.str "pending")] (some 0) "linux" none) = ["done"] :=
  ⟨rfl,
   (C1_exactly_one_terminal_write (fun _ => none) 100
      [("status", JSON.str "pending")] (some 0) "linux"
      (some "exit status 1") ["systemctl", "poweroff"] rfl (by decide)
      rfl).2.1,
   (C1_exactly_one_terminal_write (fun _ => none) 100
      [("status", JSON.str "pending")] (some 0) "linux" none
      ["systemctl", "poweroff"] rfl (by decide) rfl).2.1⟩

/-- Helper: an early return of the part_002 expiry check writes either
nothing (parse-error log) or the single state `expired`. -/
theorem expiryCheckV2_writes (parse : String → Option Int) (now : Int)
    (req : List (String × JSON)) (tr : List AgentAction)
    (h : expiryCheckV2 parse now req = some tr) :
    writtenShutdownStatuses tr = [] ∨
    writtenShutdownStatuses tr = ["expired"] := by
  unfold expiryCheckV2 at h
  split at h
  · rename_i s heq
    split at h
    · left
      cases h
      rfl
    · split at h
      · right
        cases h
        simp [writtenShutdownStatuses, patchShutdownStatus, statusOnly,
          lookupField]
      · cases h
  · rename_i t heq
    split at h
    · right
      cases h
      simp [writtenShutdownStatuses, patchShutdownStatus, statusOnly,
        lookupField]
    · cases h
  · cases h

/-- C4 counterexample: the src/app.go executor, handed a pending
request, writes the state `done` directly — the transition
`pending → done` is not among the listed ones (`pending → expired |
shutting_down`, `shutting_down → done | failed`), so not every write
the agent performs follows a listed transition. -/
theorem C4_counterexample :
    statusIsPending [("status", JSON.str "pending")] = true ∧
    writtenShutdownStatuses
        (handleShutdownV1 100 [("status", JSON.str "pending")] none) =
      ["done"] ∧
    chainOk "pending" (writtenShutdownStatuses
        (handleShutdownV1 100 [("status", JSON.str "pending")] none)) =
      false := by
  refine ⟨rfl, ?_, ?_⟩ <;>
    simp [handleShutdownV1, expiryCheckV1, lookupField, asNum, uptimeYoung,
      writtenShutdownStatuses, patchShutdownStatus, statusOnly, chainOk,
      allowedStep]

/-- C4 amended: in the src/unnamed/part_002 variant, every sequence of
`shutdown_request` states the executor writes for a pending request is
a valid forward chain of the listed transitions from `pending`, and the
Status Reporter payload never touches `shutdown_request` at all; the
src/app.go executor instead writes `done` directly from `pending`. -/
theorem C4_forward_transitions_only (parse : String → Option Int)
    (now : Int) (req : List (String × JSON)) (fo : Option Int)
    (osName : String) (cmdErr : Option String) :
    chainOk "pending" (writtenShutdownStatuses
        (handleShutdown parse now req fo osName cmdErr)) = true ∧
    lookupField (updateDeviceStatusFields now) "shutdown_requested" =
      none := by
  constructor
  · unfold handleShutdown
    cases h : expiryCheckV2 parse now req with
    | some tr =>
        rcases expiryCheckV2_writes parse now req tr h with h2 | h2 <;>
          simp [h2, chainOk, allowedStep]
    | none =>
        cases hg : uptimeYoung now fo
        · cases hos : osPowerOffCmd osName <;> cases cmdErr <;>
            simp [writtenShutdownStatuses, patchShutdownStatus, commitFields,
              statusOnly, lookupField, failedFields, doneFields, chainOk,
              allowedStep]
        · simp [writtenShutdownStatuses, chainOk]
  · simp [updateDeviceStatusFields, lookupField]

/-- C7 counterexample: a create that is answered with a
uniqueness-violation Conflict (HTTP 409) is returned as an error, not
as success, by both variants — in particular the part_002 variant,
whose pre-check saw no record (the concurrent-creation race), POSTs and
surfaces the 409 as a failure. -/
theorem C7_counterexample :
    exceptOk (createDeviceV1 (NetResp.resp 409)) = false ∧
    exceptOk (createDeviceV2 (Except.ok []) (NetResp.resp 409)).1 = false ∧
    (createDeviceV2 (Except.ok []) (NetResp.resp 409)).2 = true := by
  refine ⟨?_, ?_, ?_⟩ <;>
    simp [createDeviceV1, createDeviceV2, exceptOk]

/-- C7 amended: duplicate creation is made idempotent by each variant
through its own mechanism, not by treating a Conflict response as
success: src/app.go sends the `Prefer: resolution=merge-duplicates`
header, under which the registry merges a duplicate row and answers
below 300, which createDevice returns as success; the part_002 variant
returns success without POSTing whenever its pre-check finds the record
already existing.  A raw Conflict (409) response on the POST is
returned as an error by both variants, so a duplicate-create race that
surfaces as 409 is reported as a failure. -/
theorem C7_idempotent_create_mechanisms (devices : List DeviceM)
    (postR : NetResp) (s : Nat)
    (hne : devices ≠ []) (hs : s < 300) :
    createDeviceV2 (Except.ok devices) postR = (Except.ok (), false) ∧
    createDeviceV1 (NetResp.resp s) = Except.ok () ∧
    createDeviceV1PreferHeader = ("Prefer", "resolution=merge-duplicates") := by
  refine ⟨?_, ?_, rfl⟩
  · have hlen : devices.length > 0 := List.length_pos.mpr hne
    simp [createDeviceV2, hlen]
  · simp [createDeviceV1, Nat.not_le.mpr hs]

/-- Witness for C7 amended: one existing record, a 201 Created
response. -/
theorem C7_idempotent_create_mechanisms_witness :
    createDeviceV2 (Except.ok [DeviceM.mk none none]) (NetResp.resp 409) =
      (Except.ok (), false) ∧
    createDeviceV1 (NetResp.resp 201) = Except.ok () :=
  ⟨(C7_idempotent_create_mechanisms [DeviceM.mk none none]
      (NetResp.resp 409) 201 (by simp) (by decide)).1,
   (C7_idempotent_create_mechanisms [DeviceM.mk none none]
      (NetResp.resp 409) 201 (by simp) (by decide)).2.1⟩

/-- Registry that answers 404 to every PATCH, whose recovery fetch
shows no record and whose create always fails. -/
def reg404CreateFails : RegistryBehavior where
  patchResp := fun _ => NetResp.resp 404
  fetchResp := fun _ => Except.ok []
  createResp := fun _ => Except.error "new row violates row-level security policy"

/-- C10 counterexample: against `reg404CreateFails` — a registry that
answers 404 to every PATCH — patchDevice does return (after the failed
create it logs and gives up), so it is not true that it never returns
for any registry behavior answering 404 to every PATCH. -/
theorem C10_counterexample :
    reg404CreateFails.patchResp 0 = NetResp.resp 404 ∧
    patchDeviceFuel reg404CreateFails 0 2 = some () := by
  constructor
  · rfl
  · rfl

/-- C10 amended: on every 404 PATCH response, patchDevice re-fetches
the record, creates it if absent, and recursively retries with no
retry limit; for any registry behavior that answers 404 to every PATCH
and whose recovery step always lets it proceed (each recovery fetch
shows an existing record, or each create succeeds), patchDevice never
returns: it is still recursing when any amount of fuel runs out.  It
does return when the create step of the recovery fails. -/
theorem C10_unbounded_404_retry (reg : RegistryBehavior)
    (hp : ∀ k, reg.patchResp k = NetResp.resp 404)
    (hrec : ∀ k, recoveryDevices reg k ≠ [] ∨
      reg.createResp k = Except.ok ()) :
    ∀ fuel k, patchDeviceFuel reg k fuel = none := by
  intro fuel
  induction fuel with
  | zero => intro k; rfl
  | succ n ih =>
      intro k
      unfold patchDeviceFuel
      rw [hp k]
      simp only [if_pos rfl]
      by_cases hlen : (recoveryDevices reg k).length = 0
      · rcases hrec k with hne | hcr
        · exact absurd (List.length_eq_zero.mp hlen) hne
        · simp [hlen, hcr, ih (k + 1)]
      · simp [hlen, ih (k + 1)]

/-- Registry answering 404 to every PATCH whose recovery fetch always
shows the record as existing. -/
def reg404RecordExists : RegistryBehavior where
  patchResp := fun _ => NetResp.resp 404
  fetchResp := fun _ => Except.ok [DeviceM.mk none none]
  createResp := fun _ => Except.ok ()

/-- Witness for C10 amended: five attempts against `reg404RecordExists`
and patchDevice is still recursing. -/
theorem C10_unbounded_404_retry_witness :
    patchDeviceFuel reg404RecordExists 0 5 = none :=
  C10_unbounded_404_retry reg404RecordExists (fun _ => rfl)
    (fun _ => Or.inl (by simp [recoveryDevices, reg404RecordExists])) 5 0
